import Mathlib

/-!
Verification development for the taskify-app front end.

The definitions below are shallow embeddings of the TypeScript sources:

* `src/services/apiClient.ts` — the authenticated request wrapper with
  automatic token refresh on HTTP 401 (module-level mutable state
  `isRefreshing`, `refreshPromise`, `failedQueue` is modelled as an explicit
  `ClientState` record; the event-loop interleaving of 401 observations and
  refresh settlements is modelled as a step relation over events).
* `src/features/tasks/taskSlice.ts` — the Redux task slice reducer
  (modelled as a pure function `taskReducer : TaskState → TaskAction →
  TaskState`; actions without a registered case leave the state unchanged,
  exactly as `createSlice` does).
* `src/features/auth/authSlice.ts` — the sign-out reducers, together with
  the localStorage side effect.

JavaScript truthiness of `x || fallback` on strings (empty string is falsy)
is modelled by `jsOr` / `strOr`.
-/

namespace Taskify

/-- JS `x || fallback` where `x : string | undefined`: both `undefined` and
the empty string fall through to the fallback. -/
def jsOr (s : Option String) (fallback : String) : String :=
  match s with
  | none => fallback
  | some v => if v = "" then fallback else v

/-- JS `x || fallback` on a plain string: the empty string is falsy. -/
def strOr (s : String) (fallback : String) : String :=
  if s = "" then fallback else s

/-- ApiError from src/services/authService.ts: loosely typed
payload with a message and optional field errors. -/
structure ApiError where
  message : String
  errors : Option (List String)
deriving DecidableEq, Repr

/-- Parsed JSON body of a response (`data` in apiClient): the fields the
client reads, each possibly absent. -/
structure Body where
  message : Option String
  errors : Option (List String)
deriving DecidableEq, Repr

/-- The ApiError apiClient builds from the original 401 body when the token
refresh fails: message is data.message with fallback, errors is data.errors. -/
def apiErrorAuth (b : Body) : ApiError :=
  { message := jsOr b.message "Authentication failed", errors := b.errors }

/-- The ApiError apiClient builds from a non-ok, non-401-retry response. -/
def apiErrorRequest (b : Body) : ApiError :=
  { message := jsOr b.message "Request failed", errors := b.errors }

/-! ### Event model of the apiClient module state

The module-level mutable variables of src/services/apiClient.ts are made
explicit.  A promise is named by a numeric id (`nextPromiseId` is a fresh-name
supply).  `inFlight` counts token-refresh network calls currently in flight
(incremented when `attemptTokenRefresh` starts the async IIFE, decremented
when it settles).  `settled` is the append-only log of how caller promises
were settled, in settlement order. -/

/-- Entry of `failedQueue`: the caller id, and the body of the 401 response
that the caller originally observed (kept so that we can compare the error a
queued caller finally receives with the error built from that body). -/
structure QueueEntry where
  callerId : Nat
  origBody : Body
deriving DecidableEq, Repr

/-- How a caller promise was settled. -/
inductive Settlement where
  /-- The promise was resolved with a re-invocation of the original request
  (`promise.resolve(promise.retry())`, or the initiator returning
  `makeRequest()` after a successful refresh). -/
  | resolvedRetry (callerId : Nat)
  /-- The promise was rejected with the given error. -/
  | rejected (callerId : Nat) (e : ApiError)
deriving DecidableEq, Repr

/-- The module-level state of src/services/apiClient.ts. -/
structure ClientState where
  isRefreshing : Bool
  refreshPromise : Option Nat
  failedQueue : List QueueEntry
  /-- Caller that started the current refresh, with its original 401 body. -/
  refreshStarter : Option (Nat × Body)
  /-- Number of token-refresh network calls currently in flight. -/
  inFlight : Nat
  /-- Log of caller-promise settlements. -/
  settled : List Settlement
  /-- Fresh-name supply for promise ids. -/
  nextPromiseId : Nat
deriving DecidableEq, Repr

/-- processQueue from src/services/apiClient.ts: every queued entry is
rejected with `error` when present, otherwise resolved with its retry;
afterwards `failedQueue.length = 0`. -/
def processQueue (error : Option ApiError) (s : ClientState) : ClientState :=
  { s with
    settled := s.settled ++ s.failedQueue.map (fun q =>
      match error with
      | some e => Settlement.rejected q.callerId e
      | none => Settlement.resolvedRetry q.callerId),
    failedQueue := [] }

/-- The synchronous head of attemptTokenRefresh: if `isRefreshing` is set and
`refreshPromise` is non-null, return the shared promise unchanged; otherwise
set the flag, allocate the promise, and start a refresh network call.
Returns the promise id handed to the caller, plus the new module state. -/
def attemptTokenRefresh (s : ClientState) (freshId : Nat) : Nat × ClientState :=
  if s.isRefreshing then
    match s.refreshPromise with
    | some p => (p, s)
    | none =>
        (freshId, { s with isRefreshing := true, refreshPromise := some freshId,
                           inFlight := s.inFlight + 1 })
  else
    (freshId, { s with isRefreshing := true, refreshPromise := some freshId,
                       inFlight := s.inFlight + 1 })

/-- Events of the apiClient 401/refresh protocol as they occur on the
browser event loop. -/
inductive Event where
  /-- A makeRequest call of caller `callerId` (with retryOn401 = true)
  observed a 401 response whose parsed body is `body`. -/
  | observe401 (callerId : Nat) (body : Body)
  /-- The in-flight refresh network call settled: `none` means
  refreshToken() fulfilled, `some e` means it rejected with `e`. -/
  | refreshDone (result : Option ApiError)

/-- One step of the apiClient protocol, straight from the source.

`observe401`: if a refresh is already in progress the caller is pushed onto
`failedQueue`; otherwise the caller invokes attemptTokenRefresh, becoming the
refresh starter (it awaits the refresh and will retry or reject with an
error built from its own 401 body).

`refreshDone none`: the async IIFE of attemptTokenRefresh runs
processQueue(null), then resets `isRefreshing`/`refreshPromise` in its
finally block; the starter then retries its request.

`refreshDone (some e)`: the IIFE runs processQueue(e) and rethrows; the
starter catches the rethrow and rejects with the ApiError built from its
original 401 body. -/
def step (s : ClientState) (e : Event) : ClientState :=
  match e with
  | Event.observe401 c b =>
      if s.isRefreshing then
        { s with failedQueue := s.failedQueue ++ [⟨c, b⟩] }
      else
        let r := attemptTokenRefresh s s.nextPromiseId
        { r.2 with refreshStarter := some (c, b), nextPromiseId := s.nextPromiseId + 1 }
  | Event.refreshDone result =>
      if s.isRefreshing then
        let s1 := processQueue result s
        let starterLog : List Settlement :=
          match s.refreshStarter, result with
          | some (c, _), none => [Settlement.resolvedRetry c]
          | some (c, b), some _ => [Settlement.rejected c (apiErrorAuth b)]
          | none, _ => []
        { s1 with
          settled := s1.settled ++ starterLog,
          isRefreshing := false,
          refreshPromise := none,
          refreshStarter := none,
          inFlight := s1.inFlight - 1 }
      else s

/-- The module state at load time: no refresh in progress, empty queue. -/
def initialClientState : ClientState :=
  { isRefreshing := false, refreshPromise := none, failedQueue := [],
    refreshStarter := none, inFlight := 0, settled := [], nextPromiseId := 0 }

/-- Run a sequence of events from the initial module state. -/
def runEvents (events : List Event) : ClientState :=
  events.foldl step initialClientState

/-! ### Scripted execution of a single apiClient request

`runRequest` models one call of `apiClient(endpoint, options, retryOn401)`
in isolation (no concurrent refresh): `responses` scripts the successive
fetch responses that `makeRequest` observes, `refreshes` scripts the
outcomes of successive refreshToken() calls (`true` = fulfilled).  The
second component counts how many token-refresh attempts were made before
the outcome was surfaced. -/

/-- A fetch response: HTTP status and parsed JSON body. -/
structure Response where
  status : Nat
  body : Body
deriving DecidableEq, Repr

/-- fetch response.ok: status in the range 200-299. -/
def Response.ok (r : Response) : Bool :=
  decide (200 ≤ r.status) && decide (r.status < 300)

/-- Outcome of a single apiClient call. -/
inductive Outcome where
  /-- The promise fulfilled with the parsed body. -/
  | success (b : Body)
  /-- The promise rejected with an ApiError. -/
  | failure (e : ApiError)
  /-- The script ran out before the call settled. -/
  | exhausted
deriving DecidableEq, Repr

/-- makeRequest from src/services/apiClient.ts, executed against the
scripts.  On a 401 with retryOn401 set, a refresh is attempted: on refresh
success the request is retried once (recursively consuming the next
response); on refresh failure the call rejects with the ApiError built from
the ORIGINAL 401 body.  Otherwise a non-ok response rejects with the
request-failed error and an ok response fulfils with the body. -/
def runRequest (retryOn401 : Bool) :
    List Response → List Bool → Outcome × Nat
  | [], _ => (Outcome.exhausted, 0)
  | r :: rest, refreshes =>
      if r.status = 401 ∧ retryOn401 = true then
        match refreshes with
        | [] => (Outcome.exhausted, 1)
        | ok :: rs =>
            if ok then
              let rec' := runRequest retryOn401 rest rs
              (rec'.1, rec'.2 + 1)
            else
              (Outcome.failure (apiErrorAuth r.body), 1)
      else if r.ok then
        (Outcome.success r.body, 0)
      else
        (Outcome.failure (apiErrorRequest r.body), 0)

/-- refreshToken from src/services/authService.ts: calls apiClient on
/api/auth/refresh with retryOn401 = false, so its own 401 handling is
disabled. -/
def refreshToken (responses : List Response) (refreshes : List Bool) :
    Outcome × Nat :=
  runRequest false responses refreshes

/-! ### Task slice data model (src/types, dahboard.ts and task.ts)

Record fields that no reducer reads or writes individually (timestamps,
assignee lists, creator profile) are carried by the remaining string
fields; they ride along unchanged under every operation below.  The
`subtask` counter object and the `subtasks` / `comments` arrays are
modelled as options because the reducers guard for their absence at
runtime (`if (state.task.subtask)`, `if (!state.task.comments)`). -/

/-- TaskStatus enum from src/types/dahboard.ts. -/
inductive TaskStatus where
  | pending
  | in_progress
  | stuck
  | done
deriving DecidableEq, Repr

/-- SubTaskCount from src/types/dahboard.ts.  The counters are mutated with
JS += and -= and are therefore modelled as integers (a decrement below zero
is representable, not truncated). -/
structure SubTaskCount where
  total : Int
  done : Int
deriving DecidableEq, Repr

/-- SubTaskResponse from src/types/task.ts. -/
structure SubTaskResponse where
  id : String
  tasks_id : String
  title : String
  status : TaskStatus
deriving DecidableEq, Repr

/-- CommentResponse from src/types/task.ts. -/
structure CommentResponse where
  id : String
  user_id : String
  tasks_id : String
  content : String
deriving DecidableEq, Repr

/-- TaskResponse from src/types/dahboard.ts. -/
structure TaskResponse where
  id : String
  title : String
  description : Option String
  priority : String
  status : String
  due_date : Option String
  user_id : String
  subtask : Option SubTaskCount
deriving DecidableEq, Repr

/-- TaskDetailResponse from src/types/task.ts: a TaskResponse together with
its subtasks and comments arrays. -/
structure TaskDetailResponse where
  id : String
  title : String
  description : Option String
  priority : String
  status : String
  due_date : Option String
  user_id : String
  subtask : Option SubTaskCount
  subtasks : Option (List SubTaskResponse)
  comments : Option (List CommentResponse)
deriving DecidableEq, Repr

/-- The TS object spread in updateTaskAsync.fulfilled,
`{ ...state.task, ...updatedTask }`: every TaskResponse field is overwritten
by the payload, the detail-only arrays are kept. -/
def mergeDetail (t : TaskDetailResponse) (u : TaskResponse) : TaskDetailResponse :=
  { id := u.id, title := u.title, description := u.description,
    priority := u.priority, status := u.status, due_date := u.due_date,
    user_id := u.user_id, subtask := u.subtask,
    subtasks := t.subtasks, comments := t.comments }

/-- The TS object spread in updateSubTaskAsync.fulfilled,
`{ ...state.task.subtasks[index], ...action.payload }`: the payload is a
complete SubTaskResponse, so every field is overwritten by it. -/
def mergeSubTask (_old : SubTaskResponse) (p : SubTaskResponse) : SubTaskResponse :=
  { id := p.id, tasks_id := p.tasks_id, title := p.title, status := p.status }

/-- TaskState from src/features/tasks/taskSlice.ts. -/
structure TaskState where
  tasks : List TaskResponse
  task : Option TaskDetailResponse
  isLoading : Bool
  error : Option String
deriving DecidableEq, Repr

/-- The `action.payload?.message || fallback` idiom of every rejected
reducer: the fallback is used when the action carries no payload or the
message is falsy (absent rejectValue, or empty message). -/
def rejectedMessage (payload : Option ApiError) (fallback : String) : String :=
  match payload with
  | none => fallback
  | some e => strOr e.message fallback

/-- The findIndex-then-assign idiom (`const i = l.findIndex(m); if (i !==
-1) l[i] = repl(l[i])`): replace the first element satisfying `m` by its
image under `repl`, leaving everything else in place. -/
def scanReplace {α : Type} (m : α → Bool) (repl : α → α) : List α → List α
  | [] => []
  | x :: xs => if m x then repl x :: xs else x :: scanReplace m repl xs

/-- The actions the task slice can receive.  Rejected actions carry
`Option ApiError` because `rejectWithValue` may not have been reached
(`action.payload` is then undefined).  The four subtask thunks register no
pending or rejected case in extraReducers, but the actions themselves are
still dispatched; they are listed here so that the default behaviour of
createSlice (unmatched action, state returned unchanged) is part of the
model. -/
inductive TaskAction where
  | createTaskPending
  | createTaskFulfilled (payload : TaskResponse)
  | createTaskRejected (payload : Option ApiError)
  | getTasksPending
  | getTasksFulfilled (payload : List TaskResponse)
  | getTasksRejected (payload : Option ApiError)
  | getTaskDetailPending
  | getTaskDetailFulfilled (payload : TaskDetailResponse)
  | getTaskDetailRejected (payload : Option ApiError)
  | updateTaskStatusPending
  | updateTaskStatusFulfilled (payload : TaskResponse)
  | updateTaskStatusRejected (payload : Option ApiError)
  | updateTaskPending
  | updateTaskFulfilled (payload : TaskResponse)
  | updateTaskRejected (payload : Option ApiError)
  | deleteTaskPending
  | deleteTaskFulfilled (payload : String)
  | deleteTaskRejected (payload : Option ApiError)
  | createCommentPending
  | createCommentFulfilled (payload : CommentResponse)
  | createCommentRejected (payload : Option ApiError)
  | deleteCommentPending
  | deleteCommentFulfilled (payload : String)
  | deleteCommentRejected (payload : Option ApiError)
  | updateCommentPending
  | updateCommentFulfilled (payload : CommentResponse)
  | updateCommentRejected (payload : Option ApiError)
  | createSubTaskFulfilled (payload : SubTaskResponse)
  | createSubTaskRejected (payload : Option ApiError)
  | updateSubTaskFulfilled (payload : SubTaskResponse)
  | updateSubTaskRejected (payload : Option ApiError)
  | updateSubTaskStatusFulfilled (payload : SubTaskResponse)
  | updateSubTaskStatusRejected (payload : Option ApiError)
  | deleteSubTaskFulfilled (payload : SubTaskResponse)
  | deleteSubTaskRejected (payload : Option ApiError)
  | clearErrorAction
deriving DecidableEq, Repr

/-- Whether the action is a rejected async action of the slice. -/
def TaskAction.isRejected : TaskAction → Bool
  | .createTaskRejected _ => true
  | .getTasksRejected _ => true
  | .getTaskDetailRejected _ => true
  | .updateTaskStatusRejected _ => true
  | .updateTaskRejected _ => true
  | .deleteTaskRejected _ => true
  | .createCommentRejected _ => true
  | .deleteCommentRejected _ => true
  | .updateCommentRejected _ => true
  | .createSubTaskRejected _ => true
  | .updateSubTaskRejected _ => true
  | .updateSubTaskStatusRejected _ => true
  | .deleteSubTaskRejected _ => true
  | _ => false

/-- The task slice reducer, case for case from the extraReducers of
src/features/tasks/taskSlice.ts (and the clearError reducer).  Actions with
no registered case fall through to the final catch-all, returning the state
unchanged, as createSlice does for unmatched action types. -/
def taskReducer (s : TaskState) (a : TaskAction) : TaskState :=
  match a with
  | .createTaskPending => { s with isLoading := true, error := none }
  | .createTaskFulfilled p =>
      { s with isLoading := false, error := none, tasks := s.tasks ++ [p] }
  | .createTaskRejected p =>
      { s with isLoading := false,
               error := some (rejectedMessage p "Failed to create task") }
  | .getTasksPending => { s with isLoading := true, error := none }
  | .getTasksFulfilled p =>
      { s with isLoading := false, tasks := p }
  | .getTasksRejected p =>
      { s with isLoading := false,
               error := some (rejectedMessage p "Failed to get tasks") }
  | .getTaskDetailPending => { s with isLoading := true, error := none }
  | .getTaskDetailFulfilled p =>
      { s with isLoading := false, error := none, task := some p }
  | .getTaskDetailRejected p =>
      { s with isLoading := false,
               error := some (rejectedMessage p "Failed to get task detail") }
  | .updateTaskStatusPending => { s with isLoading := true, error := none }
  | .updateTaskStatusFulfilled p =>
      { s with isLoading := false, error := none,
               tasks := scanReplace (fun t => t.id == p.id) (fun _ => p) s.tasks }
  | .updateTaskStatusRejected p =>
      { s with isLoading := false,
               error := some (rejectedMessage p "Failed to update task status") }
  | .updateTaskPending => { s with isLoading := true, error := none }
  | .updateTaskFulfilled p =>
      { s with isLoading := false, error := none,
               tasks := scanReplace (fun t => t.id == p.id) (fun _ => p) s.tasks,
               task :=
                 match s.task with
                 | some t => if t.id = p.id then some (mergeDetail t p) else some t
                 | none => none }
  | .updateTaskRejected p =>
      { s with isLoading := false,
               error := some (rejectedMessage p "Failed to update task") }
  | .deleteTaskPending => { s with isLoading := true, error := none }
  | .deleteTaskFulfilled taskId =>
      { s with isLoading := false, error := none,
               tasks := s.tasks.filter (fun t => !(t.id == taskId)) }
  | .deleteTaskRejected p =>
      { s with isLoading := false,
               error := some (rejectedMessage p "Failed to delete task") }
  | .createCommentPending => { s with error := none }
  | .createCommentFulfilled p =>
      { s with error := none,
               task :=
                 match s.task with
                 | some t => some { t with comments := some (t.comments.getD [] ++ [p]) }
                 | none => none }
  | .createCommentRejected p =>
      { s with error := some (rejectedMessage p "Failed to create comment") }
  | .deleteCommentPending => { s with error := none }
  | .deleteCommentFulfilled commentId =>
      { s with error := none,
               task :=
                 match s.task with
                 | some t =>
                     match t.comments with
                     | some cs =>
                         some { t with comments := some (cs.filter (fun c => !(c.id == commentId))) }
                     | none => some t
                 | none => none }
  | .deleteCommentRejected p =>
      { s with error := some (rejectedMessage p "Failed to delete comment") }
  | .updateCommentPending => { s with error := none }
  | .updateCommentFulfilled p =>
      { s with error := none,
               task :=
                 match s.task with
                 | some t =>
                     match t.comments with
                     | some cs =>
                         some { t with comments := some (scanReplace (fun c => c.id == p.id) (fun _ => p) cs) }
                     | none => some t
                 | none => none }
  | .updateCommentRejected p =>
      { s with error := some (rejectedMessage p "Failed to update comment") }
  | .createSubTaskFulfilled p =>
      { s with task :=
                 match s.task with
                 | some t =>
                     some { t with
                            subtasks := some (t.subtasks.getD [] ++ [p]),
                            subtask :=
                              match t.subtask with
                              | some c => some { c with total := c.total + 1 }
                              | none => none }
                 | none => none }
  | .updateSubTaskFulfilled p =>
      { s with task :=
                 match s.task with
                 | some t =>
                     match t.subtasks with
                     | some l =>
                         some { t with
                                subtasks := some (scanReplace (fun st => st.id == p.id)
                                  (fun old => mergeSubTask old p) l) }
                     | none => some t
                 | none => none }
  | .updateSubTaskStatusFulfilled p =>
      { s with task :=
                 match s.task with
                 | some t =>
                     match t.subtasks with
                     | some l =>
                         match l.find? (fun st => st.id == p.id) with
                         | some old =>
                             some { t with
                                    subtasks := some (scanReplace (fun st => st.id == p.id)
                                      (fun _ => p) l),
                                    subtask :=
                                      if old.status ≠ p.status then
                                        match t.subtask with
                                        | some c =>
                                            if p.status = TaskStatus.done then
                                              some { c with done := c.done + 1 }
                                            else if old.status = TaskStatus.done then
                                              some { c with done := c.done - 1 }
                                            else some c
                                        | none => none
                                      else t.subtask }
                         | none => some t
                     | none => some t
                 | none => none }
  | .deleteSubTaskFulfilled p =>
      { s with task :=
                 match s.task with
                 | some t =>
                     match t.subtasks with
                     | some l =>
                         some { t with
                                subtasks := some (l.filter (fun st => !(st.id == p.id))),
                                subtask :=
                                  match t.subtask with
                                  | some c =>
                                      some { c with
                                             total := c.total - 1,
                                             done := if p.status = TaskStatus.done then
                                                       c.done - 1
                                                     else c.done }
                                  | none => none }
                     | none => some t
                 | none => none }
  | .clearErrorAction => { s with error := none }
  | _ => s

/-! ### Auth slice sign-out reducers (src/features/auth/authSlice.ts) -/

/-- User from src/services/authService.ts (the fields the auth reducers
carry; none is read individually by the sign-out cases). -/
structure User where
  id : String
  email : String
  username : String
deriving DecidableEq, Repr

/-- AuthState from src/features/auth/authSlice.ts. -/
structure AuthState where
  user : Option User
  isAuthenticated : Bool
  isLoading : Bool
  isVerifying : Bool
  error : Option String
deriving DecidableEq, Repr

/-- The browser localStorage, restricted to the single key the auth slice
uses: the serialized "user" entry. -/
structure LocalStorage where
  userEntry : Option String
deriving DecidableEq, Repr

/-- signOutAsync.fulfilled from src/features/auth/authSlice.ts: clear the
auth state and, when running in a browser (window defined), remove the
persisted "user" entry. -/
def signOutFulfilled (windowDefined : Bool) (s : AuthState) (ls : LocalStorage) :
    AuthState × LocalStorage :=
  ({ s with isLoading := false, user := none, isAuthenticated := false,
            isVerifying := false, error := none },
   if windowDefined then { ls with userEntry := none } else ls)

/-- signOutAsync.rejected from src/features/auth/authSlice.ts: record the
error, but still clear the local auth state and the persisted "user" entry
even though the backend sign-out call failed. -/
def signOutRejected (windowDefined : Bool) (payload : Option ApiError)
    (s : AuthState) (ls : LocalStorage) : AuthState × LocalStorage :=
  ({ s with isLoading := false,
            error := some (rejectedMessage payload "Signout failed"),
            user := none, isAuthenticated := false },
   if windowDefined then { ls with userEntry := none } else ls)

/-! ### Sample fixtures used by the concrete witnesses -/

def sampleTaskA : TaskResponse :=
  { id := "a", title := "A", description := none, priority := "low",
    status := "pending", due_date := none, user_id := "u", subtask := none }

def sampleTaskB : TaskResponse :=
  { id := "b", title := "B", description := none, priority := "low",
    status := "pending", due_date := none, user_id := "u", subtask := none }

def sampleTaskB2 : TaskResponse :=
  { id := "b", title := "B2", description := none, priority := "high",
    status := "done", due_date := none, user_id := "u", subtask := none }

def sampleSub (i : String) (st : TaskStatus) : SubTaskResponse :=
  { id := i, tasks_id := "t1", title := "sub", status := st }

def sampleComment (i : String) : CommentResponse :=
  { id := i, user_id := "u", tasks_id := "t1", content := "hi" }

def sampleDetail : TaskDetailResponse :=
  { id := "t1", title := "T", description := none, priority := "low",
    status := "pending", due_date := none, user_id := "u",
    subtask := some ⟨0, 0⟩, subtasks := some [], comments := none }

/-! ### The subtask counter invariant -/

/-- The counter object tracks the subtasks array: total is its length and
done is the number of entries whose status is DONE. -/
def countInv (c : SubTaskCount) (l : List SubTaskResponse) : Prop :=
  c.total = (l.length : Int) ∧
  c.done = ((l.filter (fun st => st.status == TaskStatus.done)).length : Int)

/-- countInv lifted to the slice state: whenever a task detail is loaded,
its counter object and subtasks array are both present and the counters
track the array. -/
def stateCountInv (s : TaskState) : Prop :=
  ∀ t : TaskDetailResponse, s.task = some t →
    ∃ c l, t.subtask = some c ∧ t.subtasks = some l ∧ countInv c l

/-! ### Invariant of the refresh state machine -/

/-- Module-state invariant of apiClient: the number of refresh calls in
flight is exactly given by the isRefreshing flag, and the shared promise is
present exactly while a refresh is in progress (the flag and the promise
are set together and cleared together in the finally block). -/
def ClientInv (s : ClientState) : Prop :=
  s.inFlight = (if s.isRefreshing then 1 else 0) ∧
  (s.isRefreshing = true ↔ s.refreshPromise.isSome = true)

theorem clientInv_initial : ClientInv initialClientState := by
  simp [ClientInv, initialClientState]

theorem clientInv_step (s : ClientState) (e : Event) (h : ClientInv s) :
    ClientInv (step s e) := by
  obtain ⟨h1, h2⟩ := h
  cases e with
  | observe401 c b =>
      by_cases hr : s.isRefreshing
      · simpa [step, hr, ClientInv, h1] using h2
      · simp [step, hr, attemptTokenRefresh, ClientInv]
        simpa [hr] using h1
  | refreshDone res =>
      by_cases hr : s.isRefreshing
      · have h1' : s.inFlight = 1 := by simpa [hr] using h1
        simp [step, hr, processQueue, ClientInv, h1']
      · simpa [step, hr, ClientInv, h1] using h2

theorem clientInv_foldl (l : List Event) :
    ∀ s : ClientState, ClientInv s → ClientInv (l.foldl step s) := by
  induction l with
  | nil => intro s h; simpa using h
  | cons e t ih =>
      intro s h
      simpa [List.foldl] using ih (step s e) (clientInv_step s e h)

theorem clientInv_run (events : List Event) : ClientInv (runEvents events) :=
  clientInv_foldl events initialClientState clientInv_initial

/-- C1: at most one token refresh is in flight at any time; a caller that
invokes attemptTokenRefresh while isRefreshing is true (so the shared
refreshPromise exists) receives that shared promise and leaves the module
state unchanged, starting no new refresh call. -/
theorem c1_single_inflight_refresh (events : List Event) (s : ClientState)
    (freshId p : Nat) (h1 : s.isRefreshing = true) (h2 : s.refreshPromise = some p) :
    (runEvents events).inFlight ≤ 1 ∧ attemptTokenRefresh s freshId = (p, s) := by
  constructor
  · obtain ⟨hi, _⟩ := clientInv_run events
    rw [hi]
    split <;> omega
  · simp [attemptTokenRefresh, h1, h2]

/-- Witness for C1 at a concrete trace and a concrete refreshing state. -/
theorem c1_single_inflight_refresh_witness :
    (runEvents [Event.observe401 0 ⟨none, none⟩]).inFlight ≤ 1 ∧
    attemptTokenRefresh ⟨true, some 5, [], none, 1, [], 1⟩ 7 =
      (5, ⟨true, some 5, [], none, 1, [], 1⟩) :=
  c1_single_inflight_refresh [Event.observe401 0 ⟨none, none⟩]
    ⟨true, some 5, [], none, 1, [], 1⟩ 7 5 rfl rfl

/-- C2: a request observing a 401 while a refresh is in progress is pushed
onto the failed-request queue; when the shared refresh completes
successfully the queue is emptied and every queued entry is settled by
resolving its promise with its retry, so no queued request is dropped. -/
theorem c2_queue_replayed_on_success (s : ClientState) (c : Nat) (b : Body)
    (h : s.isRefreshing = true) :
    (step s (Event.observe401 c b)).failedQueue = s.failedQueue ++ [⟨c, b⟩] ∧
    (step s (Event.refreshDone none)).failedQueue = [] ∧
    ∀ q ∈ s.failedQueue,
      Settlement.resolvedRetry q.callerId ∈ (step s (Event.refreshDone none)).settled := by
  refine ⟨by simp [step, h], by simp [step, h, processQueue], ?_⟩
  intro q hq
  simp only [step, h, if_true, processQueue, List.mem_append]
  left
  right
  exact List.mem_map.mpr ⟨q, hq, rfl⟩

/-- Witness for C2 at a concrete refreshing state with one queued entry. -/
theorem c2_queue_replayed_on_success_witness :
    (step ⟨true, some 0, [⟨3, ⟨none, none⟩⟩], some (1, ⟨none, none⟩), 1, [], 1⟩
        (Event.observe401 4 ⟨none, none⟩)).failedQueue =
      [⟨3, ⟨none, none⟩⟩] ++ [⟨4, ⟨none, none⟩⟩] ∧
    (step ⟨true, some 0, [⟨3, ⟨none, none⟩⟩], some (1, ⟨none, none⟩), 1, [], 1⟩
        (Event.refreshDone none)).failedQueue = [] ∧
    ∀ q ∈ [(⟨3, ⟨none, none⟩⟩ : QueueEntry)],
      Settlement.resolvedRetry q.callerId ∈
        (step ⟨true, some 0, [⟨3, ⟨none, none⟩⟩], some (1, ⟨none, none⟩), 1, [], 1⟩
          (Event.refreshDone none)).settled :=
  c2_queue_replayed_on_success
    ⟨true, some 0, [⟨3, ⟨none, none⟩⟩], some (1, ⟨none, none⟩), 1, [], 1⟩
    4 ⟨none, none⟩ rfl

/-- C3 counterexample: caller 1 initiates the refresh with original body
message "orig1", caller 2 is queued with original body message "orig2", and
the refresh fails with message "refresh boom".  Caller 2 is rejected with
the refresh error, not with an ApiError built from its original 401 body
(which would carry message "orig2"). -/
theorem c3_counterexample :
    (runEvents [Event.observe401 1 ⟨some "orig1", none⟩,
                Event.observe401 2 ⟨some "orig2", none⟩,
                Event.refreshDone (some ⟨"refresh boom", none⟩)]).settled =
      [Settlement.rejected 2 ⟨"refresh boom", none⟩,
       Settlement.rejected 1 ⟨"orig1", none⟩] ∧
    apiErrorAuth ⟨some "orig2", none⟩ = ⟨"orig2", none⟩ ∧
    (⟨"refresh boom", none⟩ : ApiError) ≠ ⟨"orig2", none⟩ := by
  refine ⟨?_, by decide, by decide⟩
  decide

/-- C3 amended: when a refresh that caller `c` initiated (with original 401
body `b`) fails with error `e`, the initiating caller is rejected with the
ApiError built from its original 401 body, while every queued caller is
rejected with the refresh error `e` itself. -/
theorem c3_amended_original_error_for_starter (s : ClientState) (c : Nat)
    (b : Body) (e : ApiError) (h1 : s.isRefreshing = true)
    (h2 : s.refreshStarter = some (c, b)) :
    (step s (Event.refreshDone (some e))).settled =
      s.settled ++ s.failedQueue.map (fun q => Settlement.rejected q.callerId e)
        ++ [Settlement.rejected c (apiErrorAuth b)] := by
  simp [step, h1, h2, processQueue]

/-- Witness for the amended C3 at a concrete refreshing state. -/
theorem c3_amended_original_error_for_starter_witness :
    (step ⟨true, some 0, [⟨2, ⟨some "orig2", none⟩⟩], some (1, ⟨some "orig1", none⟩), 1, [], 1⟩
        (Event.refreshDone (some ⟨"refresh boom", none⟩))).settled =
      [] ++ [QueueEntry.mk 2 ⟨some "orig2", none⟩].map
          (fun q => Settlement.rejected q.callerId ⟨"refresh boom", none⟩)
        ++ [Settlement.rejected 1 (apiErrorAuth ⟨some "orig1", none⟩)] :=
  c3_amended_original_error_for_starter
    ⟨true, some 0, [⟨2, ⟨some "orig2", none⟩⟩], some (1, ⟨some "orig1", none⟩), 1, [], 1⟩
    1 ⟨some "orig1", none⟩ ⟨"refresh boom", none⟩ rfl rfl

/-- C4: the refresh endpoint is called with retryOn401 = false and therefore
never triggers a refresh itself; for an ordinary request, a 401 response
triggers exactly one refresh attempt before the outcome is surfaced: if the
refresh fails the call rejects at once with the error built from the
original 401 body (one refresh, no retry), and if the refresh succeeds the
request is retried exactly once for this cycle (the retry observing a
non-401 response settles the call with exactly one refresh performed). -/
theorem runRequest_non401 (retry : Bool) (r : Response) (rest : List Response)
    (rs : List Bool) (h : ¬(r.status = 401 ∧ retry = true)) :
    runRequest retry (r :: rest) rs =
      if r.ok then (Outcome.success r.body, 0)
      else (Outcome.failure (apiErrorRequest r.body), 0) := by
  simp only [runRequest, if_neg h]

theorem runRequest_401_refreshOk (r : Response) (rest : List Response)
    (rs : List Bool) (h : r.status = 401) :
    runRequest true (r :: rest) (true :: rs) =
      ((runRequest true rest rs).1, (runRequest true rest rs).2 + 1) := by
  simp [runRequest, h]

theorem runRequest_401_refreshFail (r : Response) (rest : List Response)
    (rs : List Bool) (h : r.status = 401) :
    runRequest true (r :: rest) (false :: rs) =
      (Outcome.failure (apiErrorAuth r.body), 1) := by
  simp [runRequest, h]

theorem c4_exactly_one_refresh_per_401 (responses : List Response)
    (refreshes : List Bool) (r r2 : Response) (rest : List Response)
    (rs : List Bool) (h401 : r.status = 401) (hr2 : r2.status ≠ 401) :
    (refreshToken responses refreshes).2 = 0 ∧
    runRequest true (r :: rest) (false :: rs) =
      (Outcome.failure (apiErrorAuth r.body), 1) ∧
    (runRequest true (r :: r2 :: rest) (true :: rs)).2 = 1 := by
  refine ⟨?_, runRequest_401_refreshFail r rest rs h401, ?_⟩
  · cases responses with
    | nil => rfl
    | cons x xs =>
        rw [refreshToken, runRequest_non401 false x xs refreshes (by simp)]
        split <;> rfl
  · rw [runRequest_401_refreshOk r (r2 :: rest) rs h401,
        runRequest_non401 true r2 rest rs (by simp [hr2])]
    split <;> rfl

/-! ### Lemmas about the findIndex-then-assign idiom -/

theorem scanReplace_length {α : Type} (m : α → Bool) (repl : α → α) :
    ∀ l : List α, (scanReplace m repl l).length = l.length := by
  intro l
  induction l with
  | nil => rfl
  | cons x xs ih => by_cases hx : m x <;> simp [scanReplace, hx, ih]

theorem scanReplace_getElem_of_not {α : Type} (m : α → Bool) (repl : α → α) :
    ∀ (l : List α) (j : Nat) (t : α), l[j]? = some t → m t = false →
      (scanReplace m repl l)[j]? = some t := by
  intro l
  induction l with
  | nil => intro j t h; simp at h
  | cons x xs ih =>
      intro j t h hm
      cases j with
      | zero =>
          simp only [List.getElem?_cons_zero, Option.some.injEq] at h
          subst h
          simp [scanReplace, hm]
      | succ j =>
          cases hx : m x with
          | true => simpa [scanReplace, hx] using h
          | false =>
              have hrec := ih j t (by simpa using h) hm
              simpa [scanReplace, hx] using hrec

theorem scanReplace_getElem_of_match {α : Type} (m : α → Bool) (repl : α → α) :
    ∀ l : List α, l.countP m ≤ 1 →
      ∀ (j : Nat) (t : α), l[j]? = some t → m t = true →
        (scanReplace m repl l)[j]? = some (repl t) := by
  intro l
  induction l with
  | nil => intro _ j t h; simp at h
  | cons x xs ih =>
      intro hcount j t h hm
      by_cases hx : m x
      · have hzero : xs.countP m = 0 := by
          rw [List.countP_cons] at hcount
          simp only [hx, if_true] at hcount
          omega
        cases j with
        | zero =>
            simp only [List.getElem?_cons_zero, Option.some.injEq] at h
            subst h
            simp [scanReplace, hx]
        | succ j =>
            have ht : t ∈ xs := List.getElem?_mem (by simpa using h)
            have : ¬ (m t = true) := List.countP_eq_zero.mp hzero t ht
            exact absurd hm this
      · cases j with
        | zero =>
            simp only [List.getElem?_cons_zero, Option.some.injEq] at h
            subst h
            rw [hm] at hx
            exact absurd rfl hx
        | succ j =>
            have hcount' : xs.countP m ≤ 1 := by
              rw [List.countP_cons] at hcount
              omega
            have hxf : m x = false := by
              cases hmx : m x with
              | true => exact absurd hmx hx
              | false => rfl
            have hrec := ih hcount' j t (by simpa using h) hm
            simpa [scanReplace, hxf] using hrec

theorem scanReplace_of_forall_not {α : Type} (m : α → Bool) (repl : α → α) :
    ∀ l : List α, (∀ a ∈ l, m a = false) → scanReplace m repl l = l := by
  intro l
  induction l with
  | nil => intro _; rfl
  | cons x xs ih =>
      intro h
      have hx : m x = false := h x (List.mem_cons_self x xs)
      have hrec := ih (fun a ha => h a (List.mem_cons_of_mem x ha))
      simp [scanReplace, hx, hrec]

theorem countP_le_one_of_nodup_map {α β : Type} [DecidableEq β] (k : α → β)
    (key : β) : ∀ l : List α, (l.map k).Nodup →
      l.countP (fun a => k a == key) ≤ 1 := by
  intro l
  induction l with
  | nil => intro _; simp
  | cons x xs ih =>
      intro hnd
      rw [List.map_cons, List.nodup_cons] at hnd
      by_cases hx : k x = key
      · have hz : xs.countP (fun a => k a == key) = 0 := by
          rw [List.countP_eq_zero]
          intro a ha hka
          have hak : k a = key := by simpa using hka
          exact hnd.1 (by rw [hx, ← hak]; exact List.mem_map_of_mem k ha)
        simp [List.countP_cons, hx, hz]
      · have hle := ih hnd.2
        rw [List.countP_cons]
        simp only [beq_iff_eq, hx, if_false]
        simpa using hle

theorem filter_length_scanReplace {α : Type} (m g : α → Bool) (repl : α → α) :
    ∀ l : List α,
      (((scanReplace m repl l).filter g).length : Int) =
        ((l.filter g).length : Int) +
          (match l.find? m with
           | none => 0
           | some a => (if g (repl a) = true then 1 else 0)
                         - (if g a = true then 1 else 0)) := by
  intro l
  induction l with
  | nil => simp [scanReplace]
  | cons x xs ih =>
      cases hx : m x with
      | true =>
          rw [List.find?_cons_of_pos _ hx]
          simp only [scanReplace, hx, if_true]
          cases hgr : g (repl x) <;> cases hgx : g x <;>
            simp [List.filter_cons, hgr, hgx]
      | false =>
          rw [List.find?_cons_of_neg _ (by simp [hx])]
          simp only [scanReplace, hx]
          cases hgx : g x <;>
            simp only [Bool.false_eq_true, if_false, List.filter_cons, hgx,
              if_true, List.length_cons] <;>
            push_cast <;> omega

theorem filter_not_of_countP_zero {α : Type} (m : α → Bool) :
    ∀ l : List α, l.countP m = 0 → l.filter (fun a => !(m a)) = l := by
  intro l
  induction l with
  | nil => intro _; rfl
  | cons x xs ih =>
      intro h
      rw [List.countP_cons] at h
      cases hx : m x with
      | true => rw [hx] at h; simp at h
      | false =>
          have hxs : xs.countP m = 0 := by rw [hx] at h; simpa using h
          simp [List.filter_cons, hx, ih hxs]

theorem length_filter_not_of_countP_one {α : Type} (m : α → Bool) :
    ∀ l : List α, l.countP m = 1 →
      ((l.filter (fun a => !(m a))).length : Int) = (l.length : Int) - 1 := by
  intro l
  induction l with
  | nil => intro h; simp at h
  | cons x xs ih =>
      intro h
      rw [List.countP_cons] at h
      cases hx : m x with
      | true =>
          have hxs : xs.countP m = 0 := by rw [hx] at h; simpa using h
          rw [List.filter_cons]
          simp only [hx, Bool.not_true, Bool.false_eq_true, if_false,
            filter_not_of_countP_zero m xs hxs, List.length_cons]
          push_cast
          omega
      | false =>
          have hxs : xs.countP m = 1 := by rw [hx] at h; simpa using h
          rw [List.filter_cons]
          simp only [hx, Bool.not_false, if_true, List.length_cons]
          push_cast
          rw [ih hxs]
          omega

theorem filter_filter_not_of_countP_one {α : Type} (m g : α → Bool) (gv : Bool) :
    ∀ l : List α, l.countP m = 1 → (∀ a ∈ l, m a = true → g a = gv) →
      (((l.filter (fun a => !(m a))).filter g).length : Int) =
        ((l.filter g).length : Int) - (if gv = true then 1 else 0) := by
  intro l
  induction l with
  | nil => intro h; simp at h
  | cons x xs ih =>
      intro h hst
      rw [List.countP_cons] at h
      cases hx : m x with
      | true =>
          have hxs : xs.countP m = 0 := by rw [hx] at h; simpa using h
          have hgx : g x = gv := hst x (List.mem_cons_self x xs) hx
          rw [List.filter_cons]
          simp only [hx, Bool.not_true, Bool.false_eq_true, if_false,
            filter_not_of_countP_zero m xs hxs]
          rw [List.filter_cons, hgx]
          cases gv <;> simp
      | false =>
          have hxs : xs.countP m = 1 := by rw [hx] at h; simpa using h
          have hrec := ih hxs (fun a ha hm => hst a (List.mem_cons_of_mem x ha) hm)
          rw [List.filter_cons]
          simp only [hx, Bool.not_false, if_true]
          rw [List.filter_cons, List.filter_cons]
          cases hgx : g x
          · simpa only [Bool.false_eq_true, if_false] using hrec
          · simp only [if_true, List.length_cons]
            cases gv
            · simp only [Bool.false_eq_true, if_false] at hrec ⊢
              push_cast
              omega
            · simp only [if_true] at hrec ⊢
              push_cast
              omega

theorem countInv_append_not_done (c : SubTaskCount) (l : List SubTaskResponse)
    (p : SubTaskResponse) (h : countInv c l) (hp : p.status ≠ TaskStatus.done) :
    countInv ⟨c.total + 1, c.done⟩ (l ++ [p]) := by
  obtain ⟨h1, h2⟩ := h
  constructor
  · simp only [List.length_append, List.length_cons, List.length_nil]
    rw [h1]
    push_cast
    omega
  · simp only [List.filter_append]
    have hfp : (List.filter (fun st => st.status == TaskStatus.done) [p]) = [] := by
      simp [hp]
    rw [hfp, List.append_nil]
    exact h2

theorem countInv_scanReplace_status (c : SubTaskCount) (l : List SubTaskResponse)
    (m : SubTaskResponse → Bool) (r : SubTaskResponse → SubTaskResponse)
    (h : countInv c l)
    (hkeep : ∀ old, l.find? m = some old → (r old).status = old.status) :
    countInv c (scanReplace m r l) := by
  obtain ⟨h1, h2⟩ := h
  constructor
  · rw [h1, scanReplace_length]
  · rw [filter_length_scanReplace]
    cases hfind : l.find? m with
    | none => simpa using h2
    | some old =>
        have heq := hkeep old hfind
        simp only [heq]
        simpa using h2

theorem countInv_delete (c : SubTaskCount) (l : List SubTaskResponse)
    (p : SubTaskResponse) (h : countInv c l)
    (hcount : l.countP (fun st => st.id == p.id) = 1)
    (hst : ∀ st ∈ l, st.id = p.id → st.status = p.status) :
    countInv
      ⟨c.total - 1, if p.status = TaskStatus.done then c.done - 1 else c.done⟩
      (l.filter (fun st => !(st.id == p.id))) := by
  obtain ⟨h1, h2⟩ := h
  constructor
  · rw [length_filter_not_of_countP_one _ l hcount, h1]
  · have hagree : ∀ a ∈ l, (fun st => st.id == p.id) a = true →
        (fun st => st.status == TaskStatus.done) a = (p.status == TaskStatus.done) := by
      intro a ha hm
      have haid : a.id = p.id := by simpa using hm
      simp only [hst a ha haid]
    rw [filter_filter_not_of_countP_one (fun st => st.id == p.id)
      (fun st => st.status == TaskStatus.done) (p.status == TaskStatus.done)
      l hcount hagree, ← h2]
    by_cases hd : p.status = TaskStatus.done <;> simp [hd]

/-- Witness for C4 at concrete scripts. -/
theorem c4_exactly_one_refresh_per_401_witness :
    (refreshToken [⟨401, ⟨none, none⟩⟩] [true]).2 = 0 ∧
    runRequest true ([⟨401, ⟨some "expired", none⟩⟩] ++ []) (false :: []) =
      (Outcome.failure (apiErrorAuth ⟨some "expired", none⟩), 1) ∧
    (runRequest true ([⟨401, ⟨some "expired", none⟩⟩] ++ ⟨200, ⟨none, none⟩⟩ :: []) (true :: [])).2 = 1 := by
  have h := c4_exactly_one_refresh_per_401 [⟨401, ⟨none, none⟩⟩] [true]
    ⟨401, ⟨some "expired", none⟩⟩ ⟨200, ⟨none, none⟩⟩ [] []
    rfl (by decide)
  simpa using h

/-- C5: a fulfilled task update (status update or general update) replaces,
in the tasks array, exactly the task whose id equals the payload id — array
length, every other task and the relative order are unchanged, and when no
task carries that id the array is unchanged.  The uniqueness hypothesis
makes "the task whose id equals the payload id" well defined. -/
theorem c5_update_replaces_unique_task (s : TaskState) (p : TaskResponse)
    (hnd : (s.tasks.map (fun t => t.id)).Nodup) :
    ((taskReducer s (TaskAction.updateTaskStatusFulfilled p)).tasks =
       scanReplace (fun t => t.id == p.id) (fun _ => p) s.tasks) ∧
    ((taskReducer s (TaskAction.updateTaskFulfilled p)).tasks =
       scanReplace (fun t => t.id == p.id) (fun _ => p) s.tasks) ∧
    (scanReplace (fun t => t.id == p.id) (fun _ => p) s.tasks).length
      = s.tasks.length ∧
    (∀ (j : Nat) (t : TaskResponse), s.tasks[j]? = some t → t.id ≠ p.id →
       (scanReplace (fun t => t.id == p.id) (fun _ => p) s.tasks)[j]? = some t) ∧
    (∀ (j : Nat) (t : TaskResponse), s.tasks[j]? = some t → t.id = p.id →
       (scanReplace (fun t => t.id == p.id) (fun _ => p) s.tasks)[j]? = some p) ∧
    ((∀ t ∈ s.tasks, t.id ≠ p.id) →
       scanReplace (fun t => t.id == p.id) (fun _ => p) s.tasks = s.tasks) := by
  refine ⟨rfl, rfl, scanReplace_length _ _ s.tasks, ?_, ?_, ?_⟩
  · intro j t hj hne
    exact scanReplace_getElem_of_not _ _ s.tasks j t hj (by simpa using hne)
  · intro j t hj heq
    have hc := countP_le_one_of_nodup_map (fun t : TaskResponse => t.id) p.id
      s.tasks hnd
    exact scanReplace_getElem_of_match _ _ s.tasks hc j t hj (by simpa using heq)
  · intro hall
    exact scanReplace_of_forall_not _ _ s.tasks
      (fun a ha => by simpa using hall a ha)

/-- Witness for C5 on a two-element tasks array with distinct ids. -/
theorem c5_update_replaces_unique_task_witness :
    ((taskReducer ⟨[sampleTaskA, sampleTaskB], none, false, none⟩
        (TaskAction.updateTaskStatusFulfilled sampleTaskB2)).tasks =
       scanReplace (fun t => t.id == sampleTaskB2.id) (fun _ => sampleTaskB2)
         [sampleTaskA, sampleTaskB]) ∧
    ((taskReducer ⟨[sampleTaskA, sampleTaskB], none, false, none⟩
        (TaskAction.updateTaskFulfilled sampleTaskB2)).tasks =
       scanReplace (fun t => t.id == sampleTaskB2.id) (fun _ => sampleTaskB2)
         [sampleTaskA, sampleTaskB]) ∧
    (scanReplace (fun t => t.id == sampleTaskB2.id) (fun _ => sampleTaskB2)
        [sampleTaskA, sampleTaskB]).length = [sampleTaskA, sampleTaskB].length ∧
    (∀ (j : Nat) (t : TaskResponse), [sampleTaskA, sampleTaskB][j]? = some t →
       t.id ≠ sampleTaskB2.id →
       (scanReplace (fun t => t.id == sampleTaskB2.id) (fun _ => sampleTaskB2)
          [sampleTaskA, sampleTaskB])[j]? = some t) ∧
    (∀ (j : Nat) (t : TaskResponse), [sampleTaskA, sampleTaskB][j]? = some t →
       t.id = sampleTaskB2.id →
       (scanReplace (fun t => t.id == sampleTaskB2.id) (fun _ => sampleTaskB2)
          [sampleTaskA, sampleTaskB])[j]? = some sampleTaskB2) ∧
    ((∀ t ∈ [sampleTaskA, sampleTaskB], t.id ≠ sampleTaskB2.id) →
       scanReplace (fun t => t.id == sampleTaskB2.id) (fun _ => sampleTaskB2)
         [sampleTaskA, sampleTaskB] = [sampleTaskA, sampleTaskB]) :=
  c5_update_replaces_unique_task ⟨[sampleTaskA, sampleTaskB], none, false, none⟩
    sampleTaskB2 (by decide)

/-- C9: every rejected task-slice async action leaves the entity data
unchanged: the tasks array and the loaded task detail (hence its comments
and subtasks) are exactly what they were; only isLoading and error move. -/
theorem c9_rejected_preserves_entities (s : TaskState) (a : TaskAction)
    (h : a.isRejected = true) :
    (taskReducer s a).tasks = s.tasks ∧ (taskReducer s a).task = s.task := by
  cases a <;>
    first
      | exact ⟨rfl, rfl⟩
      | exact absurd h (by simp [TaskAction.isRejected])

/-- Witness for C9 at a concrete rejected action. -/
theorem c9_rejected_preserves_entities_witness :
    (taskReducer ⟨[sampleTaskA], none, false, none⟩
        (TaskAction.createTaskRejected none)).tasks = [sampleTaskA] ∧
    (taskReducer ⟨[sampleTaskA], none, false, none⟩
        (TaskAction.createTaskRejected none)).task = none :=
  c9_rejected_preserves_entities ⟨[sampleTaskA], none, false, none⟩
    (TaskAction.createTaskRejected none) rfl

/-- C7 counterexample: the subtask thunks register no rejected case, so a
rejected deleteSubTaskAsync action carrying an ApiError payload leaves the
state — in particular state.error — completely unchanged: after this
rejection state.error is still null, not a non-empty string, and the
payload message was not stored. -/
theorem c7_counterexample :
    (taskReducer ⟨[], none, false, none⟩
        (TaskAction.deleteSubTaskRejected (some ⟨"boom", none⟩))).error = none ∧
    taskReducer ⟨[], none, false, none⟩
        (TaskAction.deleteSubTaskRejected (some ⟨"boom", none⟩)) =
      ⟨[], none, false, none⟩ :=
  ⟨rfl, rfl⟩

/-- C7 amended: for the nine async actions that do register a rejected case
(task create/get/detail/status/update/delete, comment create/delete/update),
the reducer stores `payload?.message || fallback` in state.error: the
payload message when it is present and non-empty, otherwise the
action-specific fallback; since every fallback is a non-empty literal the
stored error is always non-empty.  The four subtask thunks register no
rejected case and leave the state unchanged. -/
theorem c7_amended_handled_rejections (s : TaskState) (payload : Option ApiError) :
    ((taskReducer s (TaskAction.createTaskRejected payload)).error =
       some (rejectedMessage payload "Failed to create task")) ∧
    ((taskReducer s (TaskAction.getTasksRejected payload)).error =
       some (rejectedMessage payload "Failed to get tasks")) ∧
    ((taskReducer s (TaskAction.getTaskDetailRejected payload)).error =
       some (rejectedMessage payload "Failed to get task detail")) ∧
    ((taskReducer s (TaskAction.updateTaskStatusRejected payload)).error =
       some (rejectedMessage payload "Failed to update task status")) ∧
    ((taskReducer s (TaskAction.updateTaskRejected payload)).error =
       some (rejectedMessage payload "Failed to update task")) ∧
    ((taskReducer s (TaskAction.deleteTaskRejected payload)).error =
       some (rejectedMessage payload "Failed to delete task")) ∧
    ((taskReducer s (TaskAction.createCommentRejected payload)).error =
       some (rejectedMessage payload "Failed to create comment")) ∧
    ((taskReducer s (TaskAction.deleteCommentRejected payload)).error =
       some (rejectedMessage payload "Failed to delete comment")) ∧
    ((taskReducer s (TaskAction.updateCommentRejected payload)).error =
       some (rejectedMessage payload "Failed to update comment")) ∧
    (taskReducer s (TaskAction.createSubTaskRejected payload) = s) ∧
    (taskReducer s (TaskAction.updateSubTaskRejected payload) = s) ∧
    (taskReducer s (TaskAction.updateSubTaskStatusRejected payload) = s) ∧
    (taskReducer s (TaskAction.deleteSubTaskRejected payload) = s) ∧
    (∀ (e : ApiError) (fb : String),
       e.message = "" ∨ rejectedMessage (some e) fb = e.message) ∧
    (∀ fb : String, rejectedMessage none fb = fb) ∧
    (∀ (q : Option ApiError) (fb : String), fb = "" ∨ rejectedMessage q fb ≠ "") := by
  refine ⟨rfl, rfl, rfl, rfl, rfl, rfl, rfl, rfl, rfl, rfl, rfl, rfl, rfl,
    ?_, fun _ => rfl, ?_⟩
  · intro e fb
    by_cases hm : e.message = ""
    · exact Or.inl hm
    · exact Or.inr (by simp [rejectedMessage, strOr, hm])
  · intro q fb
    by_cases hf : fb = ""
    · exact Or.inl hf
    · refine Or.inr ?_
      cases q with
      | none => simpa [rejectedMessage] using hf
      | some e =>
          by_cases hm : e.message = ""
          · simp only [rejectedMessage, strOr, hm, if_true]
            exact hf
          · simp only [rejectedMessage, strOr, hm, if_false]
            exact hm

/-- C8: after signOutAsync settles — fulfilled or rejected — the auth state
has a null user and isAuthenticated false, and the persisted "user" entry is
removed from local storage; local sign-out happens even when the backend
call failed. -/
theorem c8_signout_always_clears_local (wd : Bool) (s : AuthState)
    (ls : LocalStorage) (payload : Option ApiError) (hw : wd = true) :
    ((signOutFulfilled wd s ls).1.user = none ∧
     (signOutFulfilled wd s ls).1.isAuthenticated = false ∧
     (signOutFulfilled wd s ls).2.userEntry = none) ∧
    ((signOutRejected wd payload s ls).1.user = none ∧
     (signOutRejected wd payload s ls).1.isAuthenticated = false ∧
     (signOutRejected wd payload s ls).2.userEntry = none) := by
  subst hw
  exact ⟨⟨rfl, rfl, rfl⟩, ⟨rfl, rfl, rfl⟩⟩

/-- Witness for C8 with a signed-in state and a persisted user entry. -/
theorem c8_signout_always_clears_local_witness :
    ((signOutFulfilled true ⟨some ⟨"1", "e", "n"⟩, true, false, false, none⟩
        ⟨some "serialized-user"⟩).1.user = none ∧
     (signOutFulfilled true ⟨some ⟨"1", "e", "n"⟩, true, false, false, none⟩
        ⟨some "serialized-user"⟩).1.isAuthenticated = false ∧
     (signOutFulfilled true ⟨some ⟨"1", "e", "n"⟩, true, false, false, none⟩
        ⟨some "serialized-user"⟩).2.userEntry = none) ∧
    ((signOutRejected true (some ⟨"network down", none⟩)
        ⟨some ⟨"1", "e", "n"⟩, true, false, false, none⟩
        ⟨some "serialized-user"⟩).1.user = none ∧
     (signOutRejected true (some ⟨"network down", none⟩)
        ⟨some ⟨"1", "e", "n"⟩, true, false, false, none⟩
        ⟨some "serialized-user"⟩).1.isAuthenticated = false ∧
     (signOutRejected true (some ⟨"network down", none⟩)
        ⟨some ⟨"1", "e", "n"⟩, true, false, false, none⟩
        ⟨some "serialized-user"⟩).2.userEntry = none) :=
  c8_signout_always_clears_local true ⟨some ⟨"1", "e", "n"⟩, true, false, false, none⟩
    ⟨some "serialized-user"⟩ (some ⟨"network down", none⟩) rfl

/-- C10 counterexample: with no task detail loaded and a previous error in
state, a fulfilled createComment action does NOT leave the entire state
unchanged: its reducer clears state.error before the null-task guard. -/
theorem c10_counterexample :
    (taskReducer ⟨[], none, false, some "previous"⟩
        (TaskAction.createCommentFulfilled (sampleComment "c1"))).error = none ∧
    taskReducer ⟨[], none, false, some "previous"⟩
        (TaskAction.createCommentFulfilled (sampleComment "c1")) ≠
      ⟨[], none, false, some "previous"⟩ :=
  ⟨rfl, by decide⟩

/-- C10 amended: when no task detail is loaded, the four subtask fulfilled
reducers leave the entire state unchanged, and the three comment fulfilled
reducers change nothing except clearing state.error; when a task detail is
loaded whose comments array is absent, createComment first initializes an
empty array and then appends, so the result is exactly the one-element
array holding the new comment. -/
theorem c10_amended_null_guards (s : TaskState) (c : CommentResponse)
    (p : SubTaskResponse) (cid : String) :
    (s.task = none →
       taskReducer s (TaskAction.createSubTaskFulfilled p) = s ∧
       taskReducer s (TaskAction.updateSubTaskFulfilled p) = s ∧
       taskReducer s (TaskAction.updateSubTaskStatusFulfilled p) = s ∧
       taskReducer s (TaskAction.deleteSubTaskFulfilled p) = s ∧
       taskReducer s (TaskAction.createCommentFulfilled c) = { s with error := none } ∧
       taskReducer s (TaskAction.deleteCommentFulfilled cid) = { s with error := none } ∧
       taskReducer s (TaskAction.updateCommentFulfilled c) = { s with error := none }) ∧
    (∀ t : TaskDetailResponse, s.task = some t → t.comments = none →
       (taskReducer s (TaskAction.createCommentFulfilled c)).task =
         some { t with comments := some [c] } ∧
       (taskReducer s (TaskAction.createCommentFulfilled c)).error = none) := by
  constructor
  · intro h
    obtain ⟨tasks, task, il, er⟩ := s
    simp only at h
    subst h
    exact ⟨rfl, rfl, rfl, rfl, rfl, rfl, rfl⟩
  · intro t ht hc
    obtain ⟨tasks, task, il, er⟩ := s
    simp only at ht
    subst ht
    constructor
    · simp [taskReducer, hc]
    · rfl

/-- Witness for the amended C10: the null-task guard at a concrete state,
and the comments-array initialization at a concrete loaded detail. -/
theorem c10_amended_null_guards_witness :
    taskReducer ⟨[], none, true, some "x"⟩
        (TaskAction.createSubTaskFulfilled (sampleSub "s1" TaskStatus.pending)) =
      ⟨[], none, true, some "x"⟩ ∧
    (taskReducer ⟨[], some sampleDetail, false, none⟩
        (TaskAction.createCommentFulfilled (sampleComment "c1"))).task =
      some { sampleDetail with comments := some [sampleComment "c1"] } :=
  ⟨((c10_amended_null_guards ⟨[], none, true, some "x"⟩ (sampleComment "c1")
      (sampleSub "s1" TaskStatus.pending) "z").1 rfl).1,
   ((c10_amended_null_guards ⟨[], some sampleDetail, false, none⟩
      (sampleComment "c1") (sampleSub "s1" TaskStatus.pending) "z").2
      sampleDetail rfl rfl).1⟩

/-- C6 counterexample: a state satisfying the counter invariant (empty
subtasks array, counters 0/0) on which a fulfilled createSubTask whose
payload already has status DONE breaks the invariant: the reducer
increments total but never increments done, while the array gains a DONE
entry. -/
theorem c6_counterexample :
    stateCountInv ⟨[], some sampleDetail, false, none⟩ ∧
    ¬ stateCountInv (taskReducer ⟨[], some sampleDetail, false, none⟩
        (TaskAction.createSubTaskFulfilled (sampleSub "s1" TaskStatus.done))) := by
  constructor
  · intro t ht
    injection ht with ht
    subst ht
    exact ⟨⟨0, 0⟩, [], rfl, rfl, rfl, rfl⟩
  · intro h
    obtain ⟨c, l, hc, hl, _, hdone⟩ := h _ rfl
    injection hc with hc
    injection hl with hl
    subst hc
    subst hl
    exact absurd hdone (by decide)

/-- C6 amended: assuming the counter invariant (total = array length, done
= number of DONE entries), each subtask mutation reducer preserves it under
the condition its increments actually rely on: create preserves it when the
created subtask is not already DONE; the general update preserves it when
the payload does not change the stored status of the matched subtask; the
status update preserves it unconditionally; delete preserves it when the
deleted id occurs exactly once and the payload status agrees with the
stored entry. -/
theorem c6_amended_counters (s : TaskState) (p : SubTaskResponse)
    (hInv : stateCountInv s) :
    (p.status ≠ TaskStatus.done →
       stateCountInv (taskReducer s (TaskAction.createSubTaskFulfilled p))) ∧
    ((∀ (t : TaskDetailResponse) (l : List SubTaskResponse) (old : SubTaskResponse),
         s.task = some t → t.subtasks = some l →
         l.find? (fun st => st.id == p.id) = some old → old.status = p.status) →
       stateCountInv (taskReducer s (TaskAction.updateSubTaskFulfilled p))) ∧
    stateCountInv (taskReducer s (TaskAction.updateSubTaskStatusFulfilled p)) ∧
    ((∀ (t : TaskDetailResponse) (l : List SubTaskResponse),
         s.task = some t → t.subtasks = some l →
         l.countP (fun st => st.id == p.id) = 1 ∧
         ∀ st ∈ l, st.id = p.id → st.status = p.status) →
       stateCountInv (taskReducer s (TaskAction.deleteSubTaskFulfilled p))) := by
  obtain ⟨tasks, task, il, er⟩ := s
  cases task with
  | none =>
      refine ⟨fun _ t' ht' => ?_, fun _ t' ht' => ?_, fun t' ht' => ?_,
        fun _ t' ht' => ?_⟩ <;> simp [taskReducer] at ht'
  | some t =>
      obtain ⟨c0, l0, hc0, hl0, hinv0⟩ := hInv t rfl
      refine ⟨?_, ?_, ?_, ?_⟩
      · intro hp t' ht'
        have hT : (taskReducer ⟨tasks, some t, il, er⟩
            (TaskAction.createSubTaskFulfilled p)).task =
            some { t with subtasks := some (l0 ++ [p]),
                          subtask := some ⟨c0.total + 1, c0.done⟩ } := by
          simp [taskReducer, hl0, hc0]
        rw [hT] at ht'
        injection ht' with ht'
        subst ht'
        exact ⟨⟨c0.total + 1, c0.done⟩, l0 ++ [p], rfl, rfl,
          countInv_append_not_done c0 l0 p hinv0 hp⟩
      · intro hagree t' ht'
        have hT : (taskReducer ⟨tasks, some t, il, er⟩
            (TaskAction.updateSubTaskFulfilled p)).task =
            some { t with subtasks := some (scanReplace (fun st => st.id == p.id)
                (fun old => mergeSubTask old p) l0) } := by
          simp [taskReducer, hl0]
        rw [hT] at ht'
        injection ht' with ht'
        subst ht'
        refine ⟨c0, _, hc0, rfl, ?_⟩
        refine countInv_scanReplace_status c0 l0 _ _ hinv0 ?_
        intro old hfind
        have heq := hagree t l0 old rfl hl0 hfind
        simp [mergeSubTask, heq]
      · intro t' ht'
        cases hfind : l0.find? (fun st => st.id == p.id) with
        | none =>
            have hT : (taskReducer ⟨tasks, some t, il, er⟩
                (TaskAction.updateSubTaskStatusFulfilled p)).task = some t := by
              simp [taskReducer, hl0, hfind]
            rw [hT] at ht'
            injection ht' with ht'
            subst ht'
            exact ⟨c0, l0, hc0, hl0, hinv0⟩
        | some old =>
            by_cases hne : old.status = p.status
            · have hT : (taskReducer ⟨tasks, some t, il, er⟩
                  (TaskAction.updateSubTaskStatusFulfilled p)).task =
                  some { t with subtasks := some (scanReplace (fun st => st.id == p.id)
                      (fun _ => p) l0) } := by
                simp [taskReducer, hl0, hfind, hne]
              rw [hT] at ht'
              injection ht' with ht'
              subst ht'
              refine ⟨c0, _, hc0, rfl, ?_⟩
              refine countInv_scanReplace_status c0 l0 _ _ hinv0 ?_
              intro old2 hfind2
              rw [hfind] at hfind2
              injection hfind2 with hfind2
              subst hfind2
              exact hne.symm
            · by_cases hpd : p.status = TaskStatus.done
              · have hod : ¬ old.status = TaskStatus.done := fun h =>
                  hne (h.trans hpd.symm)
                have hgp : (p.status == TaskStatus.done) = true := by simp [hpd]
                have hgo : (old.status == TaskStatus.done) = false := by simp [hod]
                have hT : (taskReducer ⟨tasks, some t, il, er⟩
                    (TaskAction.updateSubTaskStatusFulfilled p)).task =
                    some { t with
                           subtasks := some (scanReplace (fun st => st.id == p.id)
                             (fun _ => p) l0),
                           subtask := some ⟨c0.total, c0.done + 1⟩ } := by
                  simp only [taskReducer, hl0, hfind, hc0]
                  rw [if_pos hne, if_pos hpd]
                rw [hT] at ht'
                injection ht' with ht'
                subst ht'
                refine ⟨⟨c0.total, c0.done + 1⟩, _, rfl, rfl, ?_, ?_⟩
                · rw [show (⟨c0.total, c0.done + 1⟩ : SubTaskCount).total = c0.total from rfl,
                    scanReplace_length]
                  exact hinv0.1
                · rw [show (⟨c0.total, c0.done + 1⟩ : SubTaskCount).done = c0.done + 1 from rfl,
                    filter_length_scanReplace, hfind, hinv0.2]
                  simp only [hgp, hgo]
                  norm_num
              · by_cases hod : old.status = TaskStatus.done
                · have hgp : (p.status == TaskStatus.done) = false := by simp [hpd]
                  have hgo : (old.status == TaskStatus.done) = true := by simp [hod]
                  have hT : (taskReducer ⟨tasks, some t, il, er⟩
                      (TaskAction.updateSubTaskStatusFulfilled p)).task =
                      some { t with
                             subtasks := some (scanReplace (fun st => st.id == p.id)
                               (fun _ => p) l0),
                             subtask := some ⟨c0.total, c0.done - 1⟩ } := by
                    simp only [taskReducer, hl0, hfind, hc0]
                    rw [if_pos hne, if_neg hpd, if_pos hod]
                  rw [hT] at ht'
                  injection ht' with ht'
                  subst ht'
                  refine ⟨⟨c0.total, c0.done - 1⟩, _, rfl, rfl, ?_, ?_⟩
                  · rw [show (⟨c0.total, c0.done - 1⟩ : SubTaskCount).total = c0.total from rfl,
                      scanReplace_length]
                    exact hinv0.1
                  · rw [show (⟨c0.total, c0.done - 1⟩ : SubTaskCount).done = c0.done - 1 from rfl,
                      filter_length_scanReplace, hfind, hinv0.2]
                    simp only [hgp, hgo]
                    norm_num
                    omega
                · have hgp : (p.status == TaskStatus.done) = false := by simp [hpd]
                  have hgo : (old.status == TaskStatus.done) = false := by simp [hod]
                  have hT : (taskReducer ⟨tasks, some t, il, er⟩
                      (TaskAction.updateSubTaskStatusFulfilled p)).task =
                      some { t with
                             subtasks := some (scanReplace (fun st => st.id == p.id)
                               (fun _ => p) l0),
                             subtask := some c0 } := by
                    simp only [taskReducer, hl0, hfind, hc0]
                    rw [if_pos hne, if_neg hpd, if_neg hod]
                  rw [hT] at ht'
                  injection ht' with ht'
                  subst ht'
                  refine ⟨c0, _, rfl, rfl, ?_, ?_⟩
                  · rw [scanReplace_length]
                    exact hinv0.1
                  · rw [filter_length_scanReplace, hfind, hinv0.2]
                    simp only [hgp, hgo]
                    norm_num
      · intro hdel t' ht'
        obtain ⟨hcount, hstat⟩ := hdel t l0 rfl hl0
        have hT : (taskReducer ⟨tasks, some t, il, er⟩
            (TaskAction.deleteSubTaskFulfilled p)).task =
            some { t with
                   subtasks := some (l0.filter (fun st => !(st.id == p.id))),
                   subtask := some ⟨c0.total - 1,
                     if p.status = TaskStatus.done then c0.done - 1 else c0.done⟩ } := by
          simp [taskReducer, hl0, hc0]
        rw [hT] at ht'
        injection ht' with ht'
        subst ht'
        exact ⟨_, _, rfl, rfl, countInv_delete c0 l0 p hinv0 hcount hstat⟩

/-- Witness for the amended C6: the unconditional status-update conjunct at
a concrete invariant-satisfying state. -/
theorem c6_amended_counters_witness :
    stateCountInv (taskReducer ⟨[], some sampleDetail, false, none⟩
        (TaskAction.updateSubTaskStatusFulfilled (sampleSub "s1" TaskStatus.done))) :=
  (c6_amended_counters ⟨[], some sampleDetail, false, none⟩
      (sampleSub "s1" TaskStatus.done)
      (fun t ht => by
        injection ht with ht
        subst ht
        exact ⟨⟨0, 0⟩, [], rfl, rfl, rfl, rfl⟩)).2.2.1

end Taskify
